import Mathlib

/-!
Verification of the natural-language specification of `bob.db.lfw` against a
shallow embedding of its Python sources.

The repository is an SQL-backed loader and query layer for the Labeled Faces
in the Wild dataset.  We embed:

* `models.py` (xbob/db/lfw): the table row types `Client`, `File`, `People`,
  `Pair` and the constructors / path helpers on them;
* `query.py` (xbob/db/lfw): the `Database` query facade with its argument
  validation (`__check_single__`, `__check_validity__`), fold-rotation
  arithmetic (`__eval__`, `__dev__`, `__dev_for__`, `__world_for__`) and the
  query operations `clients`, `models`, `objects`, `pairs`, `paths`,
  `reverse`, `get_client_id_from_file_id`, `get_client_id_from_model_id`;
* `create.py` (bob/db/lfw): the one-time import routine (`add_files`,
  `add_people`, `add_pairs`, `add_annotations`, `create`).

Machine-level conventions: Python exceptions become `Except DBError`;
`self.m_session` (which is `None` exactly when the SQLite file is absent at
`connect` time) becomes an `Option DB`; SQL relational joins become list
comprehensions over the table lists in row order; `sorted()` becomes a stable
insertion sort by code-point order; Python strings are handled through their
character lists so that everything evaluates inside the kernel.
-/

namespace LFW

/-! ### Python-level utilities -/

/-- A Python argument that may be `None`, a single `str`, or a list/tuple of
strings.  Used for the `groups` / `purposes` / `classes` / `model_ids`
parameters of the query operations. -/
inductive PyArg where
  | none : PyArg
  | str (s : String) : PyArg
  | list (l : List String) : PyArg
deriving DecidableEq, Repr

/-- The Python exceptions that the embedded code can raise. -/
inductive DBError where
  | runtimeError (msg : String) : DBError
  | valueError (msg : String) : DBError
  | keyError (msg : String) : DBError
  | attributeError (msg : String) : DBError
  | assertionFailed : DBError
deriving DecidableEq, Repr

instance {ε α : Type} [DecidableEq ε] [DecidableEq α] : DecidableEq (Except ε α) := fun x y =>
  match x, y with
  | Except.ok a, Except.ok b =>
      if h : a = b then isTrue (by rw [h]) else isFalse (by simp [h])
  | Except.ok _, Except.error _ => isFalse (by simp)
  | Except.error _, Except.ok _ => isFalse (by simp)
  | Except.error d, Except.error e =>
      if h : d = e then isTrue (by rw [h]) else isFalse (by simp [h])

/-- Boolean code-point lexicographic order on character lists; this is the
comparison Python uses for `str` values (e.g. inside `sorted()`). -/
def lexLe : List Char → List Char → Bool
  | [], _ => true
  | _ :: _, [] => false
  | a :: as, b :: bs => if a < b then true else if b < a then false else lexLe as bs

/-- Python `<=` on strings. -/
def strLe (a b : String) : Bool := lexLe a.data b.data

/-- `strLe` as a relation, for use with `List.insertionSort`. -/
def rStr (a b : String) : Prop := strLe a b = true

instance : DecidableRel rStr := fun _ _ => instDecidableEqBool _ _

/-- Python `sorted()` on a list of strings: a stable sort by code-point
lexicographic order (insertion sort is stable, hence extensionally equal to
Python's stable sort). -/
def pySorted (l : List String) : List String := List.insertionSort rStr l

/-- Python `str.split()` with no argument: split on whitespace runs, dropping
empty fields (helper on character lists). -/
def splitWsAux : List Char → List Char → List (List Char)
  | [], acc => if acc = [] then [] else [acc.reverse]
  | c :: cs, acc =>
      if c.isWhitespace then
        (if acc = [] then splitWsAux cs [] else acc.reverse :: splitWsAux cs [])
      else splitWsAux cs (c :: acc)

/-- Python `line.split()`. -/
def pySplit (s : String) : List String := (splitWsAux s.data []).map String.mk

/-- Parse a list of decimal digits (helper for Python `int(...)` on the
well-formed numeric fields of the protocol files). -/
def parseNatChars (l : List Char) : Nat := l.foldl (fun acc c => acc * 10 + (c.toNat - 48)) 0

/-- Python `int(s)` for the (well-formed, non-negative) numeric fields read
from the protocol text files. -/
def pyInt (s : String) : Nat := parseNatChars s.data

/-- `os.path.join(a, b)` for the cases arising here: an absolute `b` wins;
joining from the empty string or from a string ending in a slash appends
directly; otherwise a separator is inserted. -/
def pathJoin (a b : String) : String :=
  if b.data.head? = some '/' then b
  else if a.data = [] then b
  else if a.data.getLast? = some '/' then a ++ b
  else a ++ "/" ++ b

/-- Python `"0" * n` (the empty string when the multiplier is not positive,
which matches truncated subtraction on `Nat`). -/
def zeros (n : Nat) : String := String.mk (List.replicate n '0')

/-! ### models.py: the table rows -/

/-- `Client` table (models.py line 34): one row per identity; the primary key
is the identity name. -/
structure Client where
  id : String
deriving DecidableEq, Repr

/-- `File` table (models.py line 46).  The `shot_id` column is kept as the
string representation `str(shot_id)` that `File.__init__` manipulates (the
ingestion routine passes the shot as a string parsed from the file name).  The
`name` column is declared by the bob-era models.py, which is not under src/;
Modelled from the spec: the canonical file-name stem used to look files up
during ingestion, equal to the id. -/
structure File where
  id : String
  client_id : String
  path : String
  shot_id : String
  name : String
deriving DecidableEq, Repr

/-- `File.__init__(client_id, shot_id)` (models.py lines 62-66):
`id = client_id + "_" + "0"*(4-len(str(shot_id))) + str(shot_id)` and
`path = os.path.join(client_id, id)`. -/
def File.init (client_id : String) (shot_id : String) : File :=
  let idv := client_id ++ "_" ++ zeros (4 - shot_id.length) ++ shot_id
  { id := idv
    client_id := client_id
    path := pathJoin client_id idv
    shot_id := shot_id
    name := idv }

/-- `File.make_path(directory, extension)` (models.py lines 71-90) with
non-`None` arguments: `os.path.join(directory, path + extension)` (a falsy
argument is replaced by `''`, which the embedding reaches by passing `""`). -/
def File.make_path (f : File) (directory extension : String) : String :=
  pathJoin directory (f.path ++ extension)

/-- `People` table (models.py line 115): protocol membership of single files.
The autoincrement integer primary key is assigned by the database engine and
never read by any embedded operation, so it is not modelled. -/
structure People where
  protocol : String
  file_id : String
deriving DecidableEq, Repr

/-- `Pair` table (models.py line 130): enrol/probe file pairs per protocol.
The autoincrement integer primary key is assigned by the database engine and
never read by any embedded operation, so it is not modelled. -/
structure Pair where
  protocol : String
  enrol_file_id : String
  probe_file_id : String
  is_match : Bool
deriving DecidableEq, Repr

/-- `Annotation` table.  The bob-era models.py that declares it is not under
src/; Modelled from the spec: create.py adds `Annotation(file.id,
annotation_type, annotation_file_content)` rows, one per existing annotation
file. -/
structure Annot where
  file_id : String
  annot_type : String
  content : String
deriving DecidableEq, Repr

/-! ### query.py: the Database facade -/

/-- The state of the database tables behind an open session. -/
structure DB where
  clients : List Client
  files : List File
  peoples : List People
  pairs : List Pair
deriving DecidableEq, Repr

/-- `self.m_valid_protocols` (query.py line 43). -/
def m_valid_protocols : List String :=
  ["view1", "fold1", "fold2", "fold3", "fold4", "fold5",
   "fold6", "fold7", "fold8", "fold9", "fold10"]

/-- `self.m_valid_groups` (query.py line 44). -/
def m_valid_groups : List String := ["world", "dev", "eval"]

/-- `self.m_valid_purposes` (query.py line 45). -/
def m_valid_purposes : List String := ["enrol", "probe"]

/-- `self.m_valid_classes` (query.py line 46). -/
def m_valid_classes : List String := ["matched", "unmatched"]

/-- `self.m_subworld_counts` (query.py line 47). -/
def m_subworld_counts : List (String × Nat) :=
  [("onefolds", 1), ("twofolds", 2), ("threefolds", 3), ("fourfolds", 4),
   ("fivefolds", 5), ("sixfolds", 6), ("sevenfolds", 7)]

/-- `self.m_valid_types` (query.py line 48). -/
def m_valid_types : List String := ["restricted", "unrestricted"]

/-- The keys of `m_subworld_counts`. -/
def subworld_keys : List String := m_subworld_counts.map Prod.fst

/-- `self.m_subworld_counts[subworld]`: association-list lookup; `Option.none`
models both a `None` subworld and an unknown key (a `KeyError` in Python). -/
def lookup_subworld (subworld : Option String) : Option Nat :=
  match subworld with
  | Option.none => Option.none
  | some sw => (m_subworld_counts.find? (fun kv => decide (kv.fst = sw))).map Prod.snd

/-- The `RuntimeError` of `assert_validity` (query.py line 67). -/
def noDbError : DBError :=
  DBError.runtimeError "Database cannot be found at expected location"

/-- `assert_validity` (query.py lines 63-67): raise a `RuntimeError` when no
session is open, i.e. exactly when the SQLite file was absent at `connect`
time (query.py lines 50-56); otherwise hand back the open session. -/
def assert_validity (session : Option DB) : Except DBError DB :=
  match session with
  | Option.none => Except.error noDbError
  | some db => Except.ok db

/-- `__check_single__(value, description, valid)` (query.py lines 70-74): a
`ValueError` when the value is not a `str` (here: `None`) or is not among the
valid ones; the checked string is handed back for later use. -/
def check_single (value : Option String) (description : String) (valid : List String) :
    Except DBError String :=
  match value with
  | Option.none => Except.error (DBError.valueError ("type of " ++ description))
  | some v =>
      if v ∈ valid then Except.ok v
      else Except.error (DBError.valueError description)

/-- The loop of `__check_validity__` (query.py lines 80-83): every entry must
be valid, else a `RuntimeError`; the list itself is returned. -/
def check_list (l : List String) (description : String) (valid : List String) :
    Except DBError (List String) :=
  if ∀ k ∈ l, k ∈ valid then Except.ok l
  else Except.error (DBError.runtimeError description)

/-- `__check_validity__(list, description, valid)` (query.py lines 76-83): a
falsy argument (`None`, `''`, an empty sequence) selects the full valid
tuple; a non-empty `str` is wrapped into a one-element tuple; every element
of a non-empty sequence must be valid. -/
def check_validity (l : PyArg) (description : String) (valid : List String) :
    Except DBError (List String) :=
  match l with
  | PyArg.none => Except.ok valid
  | PyArg.str s => if s = "" then Except.ok valid else check_list [s] description valid
  | PyArg.list l => if l = [] then Except.ok valid else check_list l description valid

/-- The subworld checks of the query operations (e.g. query.py lines
130-131): only a non-`None` subworld is validated. -/
def check_subworld (subworld : Option String) : Except DBError Unit :=
  match subworld with
  | Option.none => Except.ok ()
  | some sw =>
      match check_single (some sw) "sub-world" subworld_keys with
      | Except.error e => Except.error e
      | Except.ok _ => Except.ok ()

/-- `__eval__(fold)` (query.py lines 85-86): `int(fold[4:])`.  Only reached
with a valid `foldN` protocol, on which `int()` cannot raise. -/
def evalFold (fold : String) : Nat := parseNatChars (fold.data.drop 4)

/-- `__dev__(eval)` (query.py lines 88-90), as a two-element list. -/
def devFolds (ev : Nat) : List Nat := [(ev + 7) % 10 + 1, (ev + 8) % 10 + 1]

/-- `__dev_for__(fold)` (query.py lines 92-93). -/
def dev_for (fold : String) : List String :=
  (devFolds (evalFold fold)).map (fun f => "fold" ++ toString f)

/-- The list built by the loop of `__world_for__` (query.py lines 101-104)
from the eval fold number and the subworld count. -/
def world_list (fold : String) (world_count : Nat) : List String :=
  (List.range world_count).map (fun i => "fold" ++ toString ((evalFold fold + i) % 10 + 1))

/-- `__world_for__(fold, subworld)` (query.py lines 95-104).  The dictionary
access `m_subworld_counts[subworld]` raises a `KeyError` when `subworld` is
`None` (the only way it can fail after validation). -/
def world_for (fold : String) (subworld : Option String) : Except DBError (List String) :=
  match lookup_subworld subworld with
  | Option.none => Except.error (DBError.keyError "sub-world")
  | some world_count => Except.ok (world_list fold world_count)

/-! Join helpers: each models one SQLAlchemy query shape as a nested list
comprehension over the table lists in row order, one output entity per
joined row.  `pcond` is the protocol filter of the surrounding query. -/

/-- `query(Client).join(File).join(People).filter(People.protocol ...)`
(clients, query.py lines 138-166): joins follow the foreign keys
`File.client_id == Client.id` and `People.file_id == File.id`. -/
def clientJoin (db : DB) (pcond : String → Bool) : List Client :=
  db.clients.flatMap (fun c =>
    (db.files.filter (fun f => decide (f.client_id = c.id))).flatMap (fun f =>
      ((db.peoples.filter (fun p => decide (p.file_id = f.id) && pcond p.protocol)).map
        (fun _ => c))))

/-- `order_by(Client.id)`: ordered by the primary key; a stable sort
concretizes the engine's ordering. -/
def order_by_client_id (l : List Client) : List Client :=
  List.insertionSort (fun a b => rStr a.id b.id) l

/-- `query(File).join((Pair, or_(File.id == Pair.enrol_file_id, File.id ==
Pair.probe_file_id))).filter(Pair.protocol ...)` (models/objects world sets,
e.g. query.py lines 213-214). -/
def fileJoinBoth (db : DB) (pcond : String → Bool) : List File :=
  db.files.flatMap (fun f =>
    (db.pairs.filter (fun p =>
      (decide (f.id = p.enrol_file_id) || decide (f.id = p.probe_file_id)) &&
        pcond p.protocol)).map (fun _ => f))

/-- `query(File).join((Pair, File.id == Pair.enrol_file_id)).filter(...)`
(enrol queries, e.g. query.py lines 218-219). -/
def fileJoinEnrol (db : DB) (pcond : String → Bool) : List File :=
  db.files.flatMap (fun f =>
    (db.pairs.filter (fun p => decide (f.id = p.enrol_file_id) && pcond p.protocol)).map
      (fun _ => f))

/-- `query(File).join(People).filter(People.protocol ...)` (unrestricted
world sets, query.py lines 344-345): join on `People.file_id == File.id`. -/
def fileJoinPeople (db : DB) (pcond : String → Bool) : List File :=
  db.files.flatMap (fun f =>
    (db.peoples.filter (fun p => decide (p.file_id = f.id) && pcond p.protocol)).map
      (fun _ => f))

/-- The probe queries of `objects` (e.g. query.py lines 353-357):
`query(File).join((Pair, File.id == Pair.probe_file_id)).join((file_alias,
Pair.enrol_file_id == file_alias.id)).filter(...)`; each row carries the
selected probe `File` together with the aliased enrol `File` (on whose id the
`model_ids` filter acts). -/
def probeJoin (db : DB) (pcond : String → Bool) : List (File × File) :=
  db.files.flatMap (fun f =>
    (db.pairs.filter (fun p => decide (f.id = p.probe_file_id) && pcond p.protocol)).flatMap
      (fun p =>
        (db.files.filter (fun fa => decide (fa.id = p.enrol_file_id))).map (fun fa => (f, fa))))

/-- `default_query()` of `pairs` (query.py lines 439-442): `query(Pair)`
joined with the two file aliases on `File1.id == Pair.enrol_file_id` and
`File2.id == Pair.probe_file_id`. -/
def default_query (db : DB) : List Pair :=
  db.pairs.flatMap (fun p =>
    (db.files.filter (fun f1 => decide (f1.id = p.enrol_file_id))).flatMap (fun _ =>
      (db.files.filter (fun f2 => decide (f2.id = p.probe_file_id))).map (fun _ => p)))

/-! The query operations.  Each takes the session (`self.m_session`) and its
keyword parameters and either returns the collected result list or raises. -/

/-- `Database.clients(protocol, groups, subworld)` (query.py lines 107-174). -/
def Database.clients (session : Option DB) (protocol : Option String) (groups : PyArg)
    (subworld : Option String) : Except DBError (List Client) := do
  let db ← assert_validity session
  let protocol ← check_single protocol "protocol" m_valid_protocols
  let groups ← check_validity groups "group" m_valid_groups
  let _ ← check_subworld subworld
  let queries ←
    if protocol = "view1" then
      pure ((if "world" ∈ groups then
               [order_by_client_id (clientJoin db (fun s => decide (s = "train")))] else []) ++
            (if "dev" ∈ groups then
               [order_by_client_id (clientJoin db (fun s => decide (s = "test")))] else []))
    else do
      let worldq ←
        if "world" ∈ groups then do
          let trainset ← world_for protocol subworld
          pure [order_by_client_id (clientJoin db (fun s => decide (s ∈ trainset)))]
        else pure []
      let devq :=
        if "dev" ∈ groups then
          [order_by_client_id (clientJoin db (fun s => decide (s ∈ dev_for protocol)))]
        else []
      let evalq :=
        if "eval" ∈ groups then
          [order_by_client_id (clientJoin db (fun s => decide (s = protocol)))]
        else []
      pure (worldq ++ devq ++ evalq)
  pure queries.flatten

/-- `Database.models(protocol, groups, subworld)` (query.py lines 177-243). -/
def Database.models (session : Option DB) (protocol : Option String) (groups : PyArg)
    (subworld : Option String) : Except DBError (List File) := do
  let db ← assert_validity session
  let protocol ← check_single protocol "protocol" m_valid_protocols
  let groups ← check_validity groups "group" m_valid_groups
  let _ ← check_subworld subworld
  let queries ←
    if protocol = "view1" then
      pure ((if "world" ∈ groups then [fileJoinBoth db (fun s => decide (s = "train"))] else []) ++
            (if "dev" ∈ groups then [fileJoinEnrol db (fun s => decide (s = "test"))] else []))
    else do
      let worldq ←
        if "world" ∈ groups then do
          let trainset ← world_for protocol subworld
          pure [fileJoinBoth db (fun s => decide (s ∈ trainset))]
        else pure []
      let devq :=
        if "dev" ∈ groups then [fileJoinEnrol db (fun s => decide (s ∈ dev_for protocol))]
        else []
      let evalq := if "eval" ∈ groups then [fileJoinEnrol db (fun s => decide (s = protocol))] else []
      pure (worldq ++ devq ++ evalq)
  pure queries.flatten

/-- `Database.get_client_id_from_file_id(file_id)` (query.py lines 246-262):
`assert q.count() == 1` then `q.first().client_id`. -/
def Database.get_client_id_from_file_id (session : Option DB) (file_id : String) :
    Except DBError String := do
  let db ← assert_validity session
  let q := db.files.filter (fun f => decide (f.id = file_id))
  if q.length = 1 then
    match q.head? with
    | some f => pure f.client_id
    | Option.none => Except.error DBError.assertionFailed
  else Except.error DBError.assertionFailed

/-- `Database.get_client_id_from_model_id(model_id)` (query.py lines
265-282): delegates to `get_client_id_from_file_id`. -/
def Database.get_client_id_from_model_id (session : Option DB) (model_id : String) :
    Except DBError String :=
  Database.get_client_id_from_file_id session model_id

/-- The elements that a `model_ids` argument contributes after the
`isinstance(model_ids, str)` wrapping (query.py lines 328-329); `None` and an
empty sequence both disable the filter (`if model_ids and len(model_ids)`). -/
def model_id_list : PyArg → List String
  | PyArg.none => []
  | PyArg.str s => [s]
  | PyArg.list l => l

/-- `Database.objects(protocol, model_ids, groups, purposes, subworld,
world_type)` (query.py lines 286-414). -/
def Database.objects (session : Option DB) (protocol : Option String) (model_ids : PyArg)
    (groups purposes : PyArg) (subworld : Option String) (world_type : Option String) :
    Except DBError (List File) := do
  let db ← assert_validity session
  let protocol ← check_single protocol "protocol" m_valid_protocols
  let groups ← check_validity groups "group" m_valid_groups
  let purposes ← check_validity purposes "purpose" m_valid_purposes
  let _ ← check_single world_type "training type" m_valid_types
  let _ ← check_subworld subworld
  let mids := model_id_list model_ids
  let res ←
    if protocol = "view1" then do
      let worldq :=
        if "world" ∈ groups then
          (if world_type = some "restricted" then [fileJoinBoth db (fun s => decide (s = "train"))]
           else [fileJoinPeople db (fun s => decide (s = "train"))])
        else []
      let devq :=
        if "dev" ∈ groups then
          (if "enrol" ∈ purposes then [fileJoinEnrol db (fun s => decide (s = "test"))] else [])
        else []
      let probeq :=
        if "dev" ∈ groups then
          (if "probe" ∈ purposes then [probeJoin db (fun s => decide (s = "test"))] else [])
        else []
      pure (worldq ++ devq, probeq)
    else do
      let worldq ←
        if "world" ∈ groups then do
          let trainset ← world_for protocol subworld
          pure (if world_type = some "restricted" then
                  [fileJoinBoth db (fun s => decide (s ∈ trainset))]
                else [fileJoinPeople db (fun s => decide (s ∈ trainset))])
        else pure []
      let devq :=
        if "dev" ∈ groups then
          (if "enrol" ∈ purposes then
             [fileJoinEnrol db (fun s => decide (s ∈ dev_for protocol))] else [])
        else []
      let devprobeq :=
        if "dev" ∈ groups then
          (if "probe" ∈ purposes then
             [probeJoin db (fun s => decide (s ∈ dev_for protocol))] else [])
        else []
      let evalq :=
        if "eval" ∈ groups then
          (if "enrol" ∈ purposes then [fileJoinEnrol db (fun s => decide (s = protocol))] else [])
        else []
      let evalprobeq :=
        if "eval" ∈ groups then
          (if "probe" ∈ purposes then [probeJoin db (fun s => decide (s = protocol))] else [])
        else []
      pure (worldq ++ devq ++ evalq, devprobeq ++ evalprobeq)
  let retval := res.fst.flatMap (fun q =>
    if mids = [] then q else q.filter (fun f => decide (f.id ∈ mids)))
  let retval2 := res.snd.flatMap (fun q =>
    (if mids = [] then q else q.filter (fun fp => decide (fp.snd.id ∈ mids))).map Prod.fst)
  pure (retval ++ retval2)

/-- `Database.pairs(protocol, groups, classes, subworld)` (query.py lines
417-482). -/
def Database.pairs (session : Option DB) (protocol : Option String) (groups classes : PyArg)
    (subworld : Option String) : Except DBError (List Pair) := do
  let db ← assert_validity session
  let protocol ← check_single protocol "protocol" m_valid_protocols
  let groups ← check_validity groups "group" m_valid_groups
  let classes ← check_validity classes "class" m_valid_classes
  let _ ← check_subworld subworld
  let queries ←
    if protocol = "view1" then
      pure ((if "world" ∈ groups then
               [(default_query db).filter (fun p => decide (p.protocol = "train"))] else []) ++
            (if "dev" ∈ groups then
               [(default_query db).filter (fun p => decide (p.protocol = "test"))] else []))
    else do
      let worldq ←
        if "world" ∈ groups then do
          let trainset ← world_for protocol subworld
          pure [(default_query db).filter (fun p => decide (p.protocol ∈ trainset))]
        else pure []
      let devq :=
        if "dev" ∈ groups then
          [(default_query db).filter (fun p => decide (p.protocol ∈ dev_for protocol))]
        else []
      let evalq :=
        if "eval" ∈ groups then
          [(default_query db).filter (fun p => decide (p.protocol = protocol))]
        else []
      pure (worldq ++ devq ++ evalq)
  let retval := queries.flatMap (fun q =>
    let q1 := if "matched" ∈ classes then q else q.filter (fun p => decide (p.is_match = false))
    let q2 := if "unmatched" ∈ classes then q1 else q1.filter (fun p => decide (p.is_match = true))
    q2)
  pure retval

/-- `Database.paths(file_ids, prefix, suffix)` (query.py lines 485-512).
After `assert_validity`, line 508 reads `self.session`, but `Database`
defines only `m_session`; the attribute lookup raises an `AttributeError`
before any row is read. -/
def Database.paths (session : Option DB) (file_ids : List String) (pfx sfx : String) :
    Except DBError (List String) := do
  let _ ← assert_validity session
  let _ := (file_ids, pfx, sfx)
  Except.error (DBError.attributeError "session")

/-- `Database.reverse(paths)` (query.py lines 515-533).  After
`assert_validity`, line 530 reads the undefined attribute `self.session`, so
an `AttributeError` is raised before any row is read. -/
def Database.reverse (session : Option DB) (path_list : List String) :
    Except DBError (List String) := do
  let _ ← assert_validity session
  let _ := path_list
  Except.error (DBError.attributeError "session")

/-- One invocation of a public query operation, for stating frame
properties. -/
inductive QueryCall where
  | clients (protocol : Option String) (groups : PyArg) (subworld : Option String) : QueryCall
  | models (protocol : Option String) (groups : PyArg) (subworld : Option String) : QueryCall
  | objects (protocol : Option String) (model_ids : PyArg) (groups purposes : PyArg)
      (subworld : Option String) (world_type : Option String) : QueryCall
  | pairs (protocol : Option String) (groups classes : PyArg)
      (subworld : Option String) : QueryCall
  | paths (file_ids : List String) (pfx sfx : String) : QueryCall
  | reverse (path_list : List String) : QueryCall
  | get_client_id_from_file_id (file_id : String) : QueryCall
deriving DecidableEq, Repr

/-- The outcome of a query invocation. -/
inductive QueryOutcome where
  | clientList (l : List Client) : QueryOutcome
  | fileList (l : List File) : QueryOutcome
  | pairList (l : List Pair) : QueryOutcome
  | strList (l : List String) : QueryOutcome
  | str (s : String) : QueryOutcome
  | raised (e : DBError) : QueryOutcome
deriving DecidableEq, Repr

/-- Coerce an operation result to an outcome. -/
def outcomeOf {α : Type} (inj : α → QueryOutcome) : Except DBError α → QueryOutcome
  | Except.ok a => inj a
  | Except.error e => QueryOutcome.raised e

/-- Run one query invocation against the session state.  The returned state
is the session field after the call: none of the query methods of query.py
assigns `self.m_session` or adds/deletes/commits rows through it (they only
build `session.query(...)` selections and iterate them), so the call hands
the state back unchanged, whether it returns normally or raises. -/
def runCall (session : Option DB) : QueryCall → QueryOutcome × Option DB
  | QueryCall.clients p g sw =>
      (outcomeOf QueryOutcome.clientList (Database.clients session p g sw), session)
  | QueryCall.models p g sw =>
      (outcomeOf QueryOutcome.fileList (Database.models session p g sw), session)
  | QueryCall.objects p m g pu sw wt =>
      (outcomeOf QueryOutcome.fileList (Database.objects session p m g pu sw wt), session)
  | QueryCall.pairs p g c sw =>
      (outcomeOf QueryOutcome.pairList (Database.pairs session p g c sw), session)
  | QueryCall.paths ids pfx sfx =>
      (outcomeOf QueryOutcome.strList (Database.paths session ids pfx sfx), session)
  | QueryCall.reverse pl =>
      (outcomeOf QueryOutcome.strList (Database.reverse session pl), session)
  | QueryCall.get_client_id_from_file_id fid =>
      (outcomeOf QueryOutcome.str (Database.get_client_id_from_file_id session fid), session)

/-! ### create.py: the one-time import routine

The import routine reads only directory listings and fixed-format text
files.  `CreateEnv` packages exactly these inputs: the two `os.listdir`
results, the pre-read lines of the protocol text files and the annotation
directory contents.  The session is modelled as the ordered log of rows
passed to `session.add` (autoflush makes previously added rows visible to
the `session.query(File)` lookups). -/

/-- One row handed to `session.add`, tagged by its table. -/
inductive Row where
  | client (c : Client) : Row
  | file (f : File) : Row
  | people (p : People) : Row
  | pair (p : Pair) : Row
  | annot (a : Annot) : Row
deriving DecidableEq, Repr

/-- The `__tablename__` receiving a row. -/
def Row.table : Row → String
  | Row.client _ => "client"
  | Row.file _ => "file"
  | Row.people _ => "people"
  | Row.pair _ => "pair"
  | Row.annot _ => "annotation"

/-- The tables set up by `create_tables` (create.py lines 168-178): the five
models declared on the shared declarative `Base.metadata`. -/
def created_tables : List String := ["client", "file", "people", "pair", "annotation"]

/-- The inputs `create` reads: directory listings and fixed-format text
files (plus the annotation files selected by the command line). -/
structure CreateEnv where
  /-- `os.listdir(basedir/all_images)`, in whatever order the OS returns. -/
  image_dirs : List String
  /-- `os.listdir(basedir/all_images/<d>)` per client directory. -/
  dir_files : String → List String
  /-- lines of `view1/peopleDevTrain.txt`. -/
  peopleDevTrain : List String
  /-- lines of `view1/peopleDevTest.txt`. -/
  peopleDevTest : List String
  /-- lines of `view2/people.txt`. -/
  people : List String
  /-- lines of `view1/pairsDevTrain.txt`. -/
  pairsDevTrain : List String
  /-- lines of `view1/pairsDevTest.txt`. -/
  pairsDevTest : List String
  /-- lines of `view2/pairs_foldN.txt` per fold. -/
  pairs_fold : Nat → List String
  /-- `args.annotation_types`. -/
  annot_types : List String
  /-- `args.idiap_annotation_dir`. -/
  idiap_dir : String
  /-- `args.funneled_annotation_dir`. -/
  funneled_dir : String
  /-- `os.path.exists` over annotation file paths. -/
  annot_exists : String → Bool
  /-- contents of an (existing) annotation file. -/
  annot_content : String → String

/-- `nodot(item)` (create.py lines 27-29): `item[0] != '.'` (listings never
contain the empty name, on which the subscript would fail). -/
def nodot (item : String) : Bool := !(item.data.head? = some '.')

/-- `os.path.splitext(...)[0]` on a base name: the part before the last dot,
or the whole name when there is none.  (The special case for names starting
with a dot is unreachable: those are removed by `nodot` first.) -/
def dropLastDotSuffix (l : List Char) : List Char :=
  match l.reverse.dropWhile (fun c => !(c = '.')) with
  | [] => l
  | _ :: front => front.reverse

/-- `base_name.split('_')[-1]`: the characters after the last underscore (the
whole name when there is none). -/
def afterLastUnderscore (l : List Char) : List Char :=
  (l.reverse.takeWhile (fun c => !(c = '_'))).reverse

/-- `add_file(session, file_name)` (create.py lines 42-48): parse a file
name into client id and shot id and build the `File` row. -/
def add_file_row (file_name : String) : File :=
  let base := dropLastDotSuffix file_name.data
  let shot := afterLastUnderscore base
  let client := base.take (base.length - (shot.length + 1))
  File.init (String.mk client) (String.mk shot)

/-- `'.jpg'` suffix test (create.py line 58). -/
def endsWithJpg (s : String) : Bool := s.data.reverse.take 4 = ['g', 'p', 'j', '.']

/-- `add_files(session, basedir, verbose)` (create.py lines 31-61): for each
non-hidden client directory, in sorted order, add a `Client` row and then a
`File` row per non-hidden `.jpg` file, in sorted order. -/
def add_files (env : CreateEnv) : List Row :=
  ((pySorted env.image_dirs).filter nodot).flatMap (fun client_dir =>
    Row.client { id := client_dir } ::
      (((pySorted (env.dir_files client_dir)).filter nodot).filter endsWithJpg).map
        (fun fn => Row.file (add_file_row fn)))

/-- The `File` rows of the session log, in insertion order (what
`session.query(File)` iterates over). -/
def filesOf (log : List Row) : List File :=
  log.filterMap (fun r => match r with
    | Row.file f => some f
    | _ => Option.none)

/-- Modelled from the spec: create.py calls a helper `filename(client, i)`
whose definition lives in the bob-era models.py, which is not under src/.
It produces the canonical file-name stem `<client>_<shot zero-padded to 4>`
that `File.name`/`File.id` carry for shot number `i`. -/
def filename (client_id : String) (i : Nat) : String :=
  client_id ++ "_" ++ zeros (4 - (toString i).length) ++ toString i

/-- `session.query(File).filter(File.name == n).first().id` (create.py lines
71, 123-124, 129-130): the first matching file in insertion order; when none
matches, `first()` is `None` and the `.id` access raises `AttributeError`. -/
def file_by_name (log : List Row) (n : String) : Except DBError File :=
  match (filesOf log).find? (fun f => decide (f.name = n)) with
  | some f => Except.ok f
  | Option.none => Except.error (DBError.attributeError "NoneType has no attribute id")

/-- Inner `add_client(session, protocol, client_id, count)` of `add_people`
(create.py lines 67-72): for `i in range(1, count+1)` look up the file named
`filename(client_id, i)` and add a `People` row for it. -/
def people_add_client (log : List Row) (protocol client_id : String) (count : Nat) :
    Except DBError (List Row) :=
  (List.range count).foldlM (fun lg i => do
    let f ← file_by_name lg (filename client_id (i + 1))
    pure (lg ++ [Row.people { protocol := protocol, file_id := f.id }])) log

/-- `parse_view1(session, filename, protocol)` (create.py lines 74-80): each
line with exactly two whitespace-separated fields names a person and an
image count. -/
def parse_view1 (lines : List String) (protocol : String) (log : List Row) :
    Except DBError (List Row) :=
  lines.foldlM (fun lg line =>
    match pySplit line with
    | [cid, cnt] => people_add_client lg protocol cid (pyInt cnt)
    | _ => Except.ok lg) log

/-- `parse_view2(session, filename)` (create.py lines 82-93).  `fold_id`
starts at 0; a one-field line (a set size) sets the current protocol to
`"fold" + str(fold_id)` and increments `fold_id` (so the leading count line
of `people.txt` absorbs `fold0` and real entries land in `fold1`..`fold10`);
a two-field line adds the client both to the current fold and to `view2`.
Before any one-field line the name `protocol` is unbound (a `NameError`). -/
def parse_view2 (lines : List String) (log : List Row) : Except DBError (List Row) := do
  let st ← lines.foldlM (fun (st : Nat × Option String × List Row) line =>
    match pySplit line with
    | [_n] => Except.ok (st.fst + 1, some ("fold" ++ toString st.fst), st.snd.snd)
    | [cid, cnt] =>
        match st.snd.fst with
        | Option.none => Except.error (DBError.attributeError "name protocol is not defined")
        | some protocol => do
            let lg ← people_add_client st.snd.snd protocol cid (pyInt cnt)
            let lg ← people_add_client lg "view2" cid (pyInt cnt)
            Except.ok (st.fst, some protocol, lg)
    | _ => Except.ok st) (0, Option.none, log)
  pure st.snd.snd

/-- `add_people(session, basedir, verbose)` (create.py lines 64-103). -/
def add_people (env : CreateEnv) (log : List Row) : Except DBError (List Row) := do
  let lg ← parse_view1 env.peopleDevTrain "train" log
  let lg ← parse_view1 env.peopleDevTest "test" lg
  parse_view2 env.people lg

/-- `parse_file(session, list_filename, protocol)` of `add_pairs` (create.py
lines 117-132): a three-field line is a matched pair, a four-field line an
unmatched pair; file ids come from name lookups. -/
def pairs_parse_file (lines : List String) (protocol : String) (log : List Row) :
    Except DBError (List Row) :=
  lines.foldlM (fun lg line =>
    match pySplit line with
    | [n1, i1, i2] => do
        let f1 ← file_by_name lg (filename n1 (pyInt i1))
        let f2 ← file_by_name lg (filename n1 (pyInt i2))
        pure (lg ++ [Row.pair { protocol := protocol, enrol_file_id := f1.id,
                                probe_file_id := f2.id, is_match := true }])
    | [n1, i1, n2, i2] => do
        let f1 ← file_by_name lg (filename n1 (pyInt i1))
        let f2 ← file_by_name lg (filename n2 (pyInt i2))
        pure (lg ++ [Row.pair { protocol := protocol, enrol_file_id := f1.id,
                                probe_file_id := f2.id, is_match := false }])
    | _ => Except.ok lg) log

/-- `add_pairs(session, basedir, verbose)` (create.py lines 106-146): view1
train/test pairs, then for each fold 1..10 the fold file under its own
protocol and once more under `view2`. -/
def add_pairs (env : CreateEnv) (log : List Row) : Except DBError (List Row) := do
  let lg ← pairs_parse_file env.pairsDevTrain "train" log
  let lg ← pairs_parse_file env.pairsDevTest "test" lg
  (List.range 10).foldlM (fun lg k => do
    let lg ← pairs_parse_file (env.pairs_fold (k + 1)) ("fold" ++ toString (k + 1)) lg
    pairs_parse_file (env.pairs_fold (k + 1)) "view2" lg) lg

/-- `add_annotations(session, annotation_directory, annotation_extension,
annotation_type, verbose)` (create.py lines 149-165): for every `File` row,
build the annotation path; when the file does not exist, `continue` to the
next file (nothing else happens); otherwise read it and add an `Annotation`
row.  The function is total: a missing annotation file never aborts
the ingestion. -/
def add_annots (env : CreateEnv) (log : List Row)
    (annotation_directory annotation_extension annot_type : String) : List Row :=
  log ++ (filesOf log).flatMap (fun f =>
    let annotation_file := File.make_path f annotation_directory annotation_extension
    if env.annot_exists annotation_file then
      [Row.annot { file_id := f.id, annot_type := annot_type,
                   content := env.annot_content annotation_file }]
    else [])

/-- `create(args)` (create.py lines 183-210): create the tables, then run
`add_files`, `add_people`, `add_pairs` and the selected annotation passes in
one session, and commit.  The result is the ordered insert log. -/
def create (env : CreateEnv) : Except DBError (List Row) := do
  let log := add_files env
  let log ← add_people env log
  let log ← add_pairs env log
  let log := if "idiap" ∈ env.annot_types then
    add_annots env log env.idiap_dir ".pos" "idiap" else log
  let log := if "funneled" ∈ env.annot_types then
    add_annots env log env.funneled_dir ".jpg.pts" "funneled" else log
  pure log

/-! ### Predicates used by the claim statements -/

/-- The operation raised: the result is some error. -/
def IsErr {α : Type} (r : Except DBError α) : Prop := ∃ e, r = Except.error e

/-- The protocol argument is invalid: it is `None` (not a `str`) or a string
outside the valid tuple. -/
def bad_single (v : Option String) (valid : List String) : Prop :=
  ∀ s, v = some s → s ∉ valid

/-- The elements a list-like argument contributes to the loop of
`__check_validity__`: none for a falsy argument (`None`, `''`, `()`), the
string itself for a non-empty `str`, the entries for a sequence. -/
def pyElems : PyArg → List String
  | PyArg.none => []
  | PyArg.str s => if s = "" then [] else [s]
  | PyArg.list l => l

/-- Referential integrity of the pair table, as guaranteed by the import
routine: every pair references an enrol file and a probe file that occur
exactly once in the file table. -/
def ValidDB (db : DB) : Prop :=
  ∀ p ∈ db.pairs,
    (db.files.filter (fun f => decide (f.id = p.enrol_file_id))).length = 1 ∧
    (db.files.filter (fun f => decide (f.id = p.probe_file_id))).length = 1

instance (db : DB) : Decidable (ValidDB db) := List.decidableBAll _ db.pairs

/-- A string left-padded with `'0'` characters to length 4 (the wording of
the file-naming claim). -/
def leftPad4 (s : String) : String := String.mk (List.replicate (4 - s.length) '0' ++ s.data)

/-! ### Order facts about the Python string comparison -/

instance : IsTotal String rStr :=
  ⟨fun a b => by
    unfold rStr strLe
    suffices h : ∀ x y : List Char, lexLe x y = true ∨ lexLe y x = true from h a.data b.data
    intro x
    induction x with
    | nil => intro y; left; rfl
    | cons c cs ih =>
      intro y
      cases y with
      | nil => right; rfl
      | cons d ds =>
        by_cases hcd : c < d
        · left; simp [lexLe, hcd]
        · by_cases hdc : d < c
          · right; simp [lexLe, hdc]
          · rcases ih ds with h | h
            · left; simp [lexLe, hcd, hdc, h]
            · right; simp [lexLe, hcd, hdc, h]⟩

instance : IsTrans String rStr :=
  ⟨fun a b c => by
    unfold rStr strLe
    suffices h : ∀ x y z : List Char,
        lexLe x y = true → lexLe y z = true → lexLe x z = true from h a.data b.data c.data
    intro x
    induction x with
    | nil => intro y z _ _; rfl
    | cons cx xs ih =>
      intro y z hxy hyz
      cases y with
      | nil => simp [lexLe] at hxy
      | cons cy ys =>
        cases z with
        | nil => simp [lexLe] at hyz
        | cons cz zs =>
          by_cases h1 : cx < cy
          · by_cases h2 : cy < cz
            · simp [lexLe, lt_trans h1 h2]
            · by_cases h3 : cz < cy
              · simp [lexLe, h2, h3] at hyz
              · have : cy = cz := le_antisymm (not_lt.mp h3) (not_lt.mp h2)
                subst this
                simp [lexLe, h1]
          · by_cases h4 : cy < cx
            · simp [lexLe, h1, h4] at hxy
            · have hxyeq : cx = cy := le_antisymm (not_lt.mp h4) (not_lt.mp h1)
              subst hxyeq
              by_cases h2 : cx < cz
              · simp [lexLe, h2]
              · by_cases h3 : cz < cx
                · simp [lexLe, h2, h3] at hyz
                · simp [lexLe, h1, h2, h3] at hxy hyz ⊢
                  exact ih ys zs hxy hyz⟩

instance : IsAntisymm String rStr :=
  ⟨fun a b => by
    unfold rStr strLe
    obtain ⟨la⟩ := a
    obtain ⟨lb⟩ := b
    suffices h : ∀ x y : List Char, lexLe x y = true → lexLe y x = true → x = y by
      intro h1 h2
      exact congrArg String.mk (h la lb h1 h2)
    intro x
    induction x with
    | nil =>
      intro y _ hy
      cases y with
      | nil => rfl
      | cons d ds => simp [lexLe] at hy
    | cons c cs ih =>
      intro y hxy hyx
      cases y with
      | nil => simp [lexLe] at hxy
      | cons d ds =>
        by_cases h1 : c < d
        · simp [lexLe, h1, asymm h1] at hyx
        · by_cases h2 : d < c
          · simp [lexLe, h1, h2] at hxy
          · have : c = d := le_antisymm (not_lt.mp h2) (not_lt.mp h1)
            subst this
            simp [lexLe, h1, h2] at hxy hyx
            rw [ih ds hxy hyx]⟩

/-! ### Concrete sample data for the witness theorems -/

/-- A sample file row: `File('Aaron', '1')`. -/
def exFileA : File := File.init "Aaron" "1"

/-- A sample file row: `File('Bob', '2')`. -/
def exFileB : File := File.init "Bob" "2"

/-- A small well-formed database instance. -/
def exDB : DB :=
  { clients := [{ id := "Aaron" }, { id := "Bob" }]
    files := [exFileA, exFileB]
    peoples := [{ protocol := "fold1", file_id := exFileA.id },
                { protocol := "fold2", file_id := exFileB.id }]
    pairs := [{ protocol := "fold1", enrol_file_id := exFileA.id,
                probe_file_id := exFileB.id, is_match := true },
              { protocol := "fold9", enrol_file_id := exFileA.id,
                probe_file_id := exFileA.id, is_match := false },
              { protocol := "fold10", enrol_file_id := exFileB.id,
                probe_file_id := exFileA.id, is_match := true }] }

/-- A small import environment: two client directories (listed out of
order), protocol files referencing them, and one existing annotation file. -/
def exEnv : CreateEnv :=
  { image_dirs := ["Bob", "Aaron"]
    dir_files := fun d =>
      if d = "Aaron" then ["Aaron_0001.jpg"]
      else if d = "Bob" then ["Bob_0002.jpg", "Bob_0001.jpg"] else []
    peopleDevTrain := ["Aaron 1"]
    peopleDevTest := ["Bob 2"]
    people := ["1", "1", "Aaron 1"]
    pairsDevTrain := ["Bob 1 2"]
    pairsDevTest := ["Aaron 1 Bob 1"]
    pairs_fold := fun _ => []
    annot_types := ["funneled"]
    idiap_dir := ""
    funneled_dir := "fun"
    annot_exists := fun p => decide (p = "fun/Aaron/Aaron_0001.jpg.pts")
    annot_content := fun _ => "1 2" }

/-! ### Helper lemmas -/

theorem flatMap_if_singleton {α β : Type} (p : α → Bool) (g : α → β) (l : List α) :
    (l.flatMap fun a => if p a then [g a] else []) = (l.filter p).map g := by
  induction l with
  | nil => rfl
  | cons a l ih => cases h : p a <;> simp [h, ih]

theorem flatMap_congr2 {α β : Type} {l : List α} {f g : α → List β}
    (h : ∀ a ∈ l, f a = g a) : l.flatMap f = l.flatMap g := by
  induction l with
  | nil => rfl
  | cons a l ih =>
    simp only [List.flatMap_cons]
    rw [h a (List.mem_cons_self a l), ih (fun x hx => h x (List.mem_cons_of_mem a hx))]

theorem check_single_ok {v : String} {valid : List String} (d : String) (hp : v ∈ valid) :
    check_single (some v) d valid = Except.ok v := by
  simp [check_single, hp]

theorem subworld_mem_of_lookup {sw : String} {n : Nat}
    (hsw : lookup_subworld (some sw) = some n) : sw ∈ subworld_keys := by
  simp only [lookup_subworld] at hsw
  cases hfind : List.find? (fun kv => decide (kv.fst = sw)) m_subworld_counts with
  | none => rw [hfind] at hsw; simp at hsw
  | some kv =>
    have hmem := List.mem_of_find?_eq_some hfind
    have h2 := List.find?_some hfind
    simp only [decide_eq_true_eq] at h2
    subst h2
    exact List.mem_map_of_mem Prod.fst hmem

/-- On a database with referential integrity, the two file joins of
`default_query` keep every pair exactly once, in row order. -/
theorem default_query_eq {db : DB} (hdb : ValidDB db) : default_query db = db.pairs := by
  unfold default_query
  calc db.pairs.flatMap _ = db.pairs.flatMap (fun p => [p]) := by
        apply flatMap_congr2
        intro p hp
        obtain ⟨h1, h2⟩ := hdb p hp
        obtain ⟨x, hx⟩ := List.length_eq_one.mp h1
        obtain ⟨y, hy⟩ := List.length_eq_one.mp h2
        rw [hx, hy]
        rfl
    _ = db.pairs := by simp

theorem pairs_eval_eq (db : DB) (proto : String) (hp : proto ∈ m_valid_protocols)
    (hv : ¬ proto = "view1") (sw : String) (hsw : sw ∈ subworld_keys) :
    Database.pairs (some db) (some proto) (PyArg.list ["eval"]) PyArg.none (some sw)
      = Except.ok ((default_query db).filter (fun p => decide (p.protocol = proto))) := by
  have hcs := check_single_ok "protocol" hp
  have hsw2 : check_subworld (some sw) = Except.ok () := by
    simp [check_subworld, check_single, hsw]
  have hg : check_validity (PyArg.list ["eval"]) "group" m_valid_groups
      = Except.ok ["eval"] := by decide
  have hc : check_validity PyArg.none "class" m_valid_classes
      = Except.ok m_valid_classes := rfl
  simp only [Database.pairs, hcs, hsw2, hg, hc, bind, Except.bind, assert_validity]
  rw [if_neg hv]
  simp +decide [pure, Except.pure]

theorem pairs_dev_eq (db : DB) (proto : String) (hp : proto ∈ m_valid_protocols)
    (hv : ¬ proto = "view1") (sw : String) (hsw : sw ∈ subworld_keys) :
    Database.pairs (some db) (some proto) (PyArg.list ["dev"]) PyArg.none (some sw)
      = Except.ok ((default_query db).filter (fun p => decide (p.protocol ∈ dev_for proto))) := by
  have hcs := check_single_ok "protocol" hp
  have hsw2 : check_subworld (some sw) = Except.ok () := by
    simp [check_subworld, check_single, hsw]
  have hg : check_validity (PyArg.list ["dev"]) "group" m_valid_groups
      = Except.ok ["dev"] := by decide
  have hc : check_validity PyArg.none "class" m_valid_classes
      = Except.ok m_valid_classes := rfl
  simp only [Database.pairs, hcs, hsw2, hg, hc, bind, Except.bind, assert_validity]
  rw [if_neg hv]
  simp +decide [pure, Except.pure]

theorem pairs_world_eq (db : DB) (proto : String) (hp : proto ∈ m_valid_protocols)
    (hv : ¬ proto = "view1") (sw : String) (n : Nat)
    (hsw : lookup_subworld (some sw) = some n) :
    Database.pairs (some db) (some proto) (PyArg.list ["world"]) PyArg.none (some sw)
      = Except.ok ((default_query db).filter (fun p => decide (p.protocol ∈ world_list proto n))) := by
  have hk := subworld_mem_of_lookup hsw
  have hcs := check_single_ok "protocol" hp
  have hsw2 : check_subworld (some sw) = Except.ok () := by
    simp [check_subworld, check_single, hk]
  have hg : check_validity (PyArg.list ["world"]) "group" m_valid_groups
      = Except.ok ["world"] := by decide
  have hc : check_validity PyArg.none "class" m_valid_classes
      = Except.ok m_valid_classes := rfl
  have hwf : world_for proto (some sw) = Except.ok (world_list proto n) := by
    simp [world_for, hsw]
  simp only [Database.pairs, hcs, hsw2, hg, hc, hwf, bind, Except.bind, assert_validity]
  rw [if_neg hv]
  simp +decide [pure, Except.pure]

theorem evalFold_fold (k : Nat) (h1 : 1 ≤ k) (h2 : k ≤ 10) :
    evalFold ("fold" ++ toString k) = k := by
  interval_cases k <;> decide

theorem check_single_err {v : Option String} {valid : List String} (d : String)
    (h : bad_single v valid) : ∃ e, check_single v d valid = Except.error e := by
  cases v with
  | none => exact ⟨_, rfl⟩
  | some s =>
    have hs := h s rfl
    exact ⟨DBError.valueError d, by simp [check_single, hs]⟩

theorem check_validity_err {a : PyArg} {valid : List String} (d : String)
    (h : ∃ s ∈ pyElems a, s ∉ valid) : ∃ e, check_validity a d valid = Except.error e := by
  obtain ⟨s, hs, hnv⟩ := h
  cases a with
  | none => simp [pyElems] at hs
  | str t =>
    by_cases ht : t = ""
    · simp [pyElems, ht] at hs
    · simp [pyElems, ht] at hs
      subst hs
      have hcond : ¬ (∀ k ∈ [s], k ∈ valid) := fun hall => hnv (hall s (by simp))
      exact ⟨DBError.runtimeError d, by
        simp only [check_validity, if_neg ht, check_list, if_neg hcond]⟩
  | list l =>
    have hl : ¬ (l = []) := by
      intro hnil
      subst hnil
      simp [pyElems] at hs
    have hcond : ¬ (∀ k ∈ l, k ∈ valid) := fun hall => hnv (hall s hs)
    exact ⟨DBError.runtimeError d, by
      simp only [check_validity, if_neg hl, check_list, if_neg hcond]⟩

theorem check_subworld_err {s : String} (hs : s ∉ subworld_keys) :
    check_subworld (some s) = Except.error (DBError.valueError "sub-world") := by
  simp [check_subworld, check_single, hs]

theorem clients_err_protocol {db : DB} {p : Option String} {g : PyArg} {sw : Option String}
    (hp : bad_single p m_valid_protocols) : IsErr (Database.clients (some db) p g sw) := by
  obtain ⟨e, he⟩ := check_single_err "protocol" hp
  exact ⟨e, by simp only [Database.clients, he, bind, Except.bind, assert_validity]⟩

theorem clients_err_groups {db : DB} {p : Option String} {g : PyArg} {sw : Option String}
    (hg : ∃ s ∈ pyElems g, s ∉ m_valid_groups) : IsErr (Database.clients (some db) p g sw) := by
  obtain ⟨e, he⟩ := check_validity_err "group" hg
  cases hp : check_single p "protocol" m_valid_protocols with
  | error e2 =>
    exact ⟨e2, by simp only [Database.clients, hp, bind, Except.bind, assert_validity]⟩
  | ok v =>
    exact ⟨e, by simp only [Database.clients, hp, he, bind, Except.bind, assert_validity]⟩

theorem clients_err_subworld {db : DB} {p : Option String} {g : PyArg} {s : String}
    (hs : s ∉ subworld_keys) : IsErr (Database.clients (some db) p g (some s)) := by
  have he := check_subworld_err hs
  cases hp : check_single p "protocol" m_valid_protocols with
  | error e2 =>
    exact ⟨e2, by simp only [Database.clients, hp, bind, Except.bind, assert_validity]⟩
  | ok v =>
    cases hgr : check_validity g "group" m_valid_groups with
    | error e3 =>
      exact ⟨e3, by simp only [Database.clients, hp, hgr, bind, Except.bind, assert_validity]⟩
    | ok gs =>
      exact ⟨DBError.valueError "sub-world", by
        simp only [Database.clients, hp, hgr, he, bind, Except.bind, assert_validity]⟩

theorem models_err_protocol {db : DB} {p : Option String} {g : PyArg} {sw : Option String}
    (hp : bad_single p m_valid_protocols) : IsErr (Database.models (some db) p g sw) := by
  obtain ⟨e, he⟩ := check_single_err "protocol" hp
  exact ⟨e, by simp only [Database.models, he, bind, Except.bind, assert_validity]⟩

theorem models_err_groups {db : DB} {p : Option String} {g : PyArg} {sw : Option String}
    (hg : ∃ s ∈ pyElems g, s ∉ m_valid_groups) : IsErr (Database.models (some db) p g sw) := by
  obtain ⟨e, he⟩ := check_validity_err "group" hg
  cases hp : check_single p "protocol" m_valid_protocols with
  | error e2 =>
    exact ⟨e2, by simp only [Database.models, hp, bind, Except.bind, assert_validity]⟩
  | ok v =>
    exact ⟨e, by simp only [Database.models, hp, he, bind, Except.bind, assert_validity]⟩

theorem models_err_subworld {db : DB} {p : Option String} {g : PyArg} {s : String}
    (hs : s ∉ subworld_keys) : IsErr (Database.models (some db) p g (some s)) := by
  have he := check_subworld_err hs
  cases hp : check_single p "protocol" m_valid_protocols with
  | error e2 =>
    exact ⟨e2, by simp only [Database.models, hp, bind, Except.bind, assert_validity]⟩
  | ok v =>
    cases hgr : check_validity g "group" m_valid_groups with
    | error e3 =>
      exact ⟨e3, by simp only [Database.models, hp, hgr, bind, Except.bind, assert_validity]⟩
    | ok gs =>
      exact ⟨DBError.valueError "sub-world", by
        simp only [Database.models, hp, hgr, he, bind, Except.bind, assert_validity]⟩

theorem objects_err_protocol {db : DB} {p : Option String} {mi g pu : PyArg}
    {sw wt : Option String} (hp : bad_single p m_valid_protocols) :
    IsErr (Database.objects (some db) p mi g pu sw wt) := by
  obtain ⟨e, he⟩ := check_single_err "protocol" hp
  exact ⟨e, by simp only [Database.objects, he, bind, Except.bind, assert_validity]⟩

theorem objects_err_groups {db : DB} {p : Option String} {mi g pu : PyArg}
    {sw wt : Option String} (hg : ∃ s ∈ pyElems g, s ∉ m_valid_groups) :
    IsErr (Database.objects (some db) p mi g pu sw wt) := by
  obtain ⟨e, he⟩ := check_validity_err "group" hg
  cases hp : check_single p "protocol" m_valid_protocols with
  | error e2 =>
    exact ⟨e2, by simp only [Database.objects, hp, bind, Except.bind, assert_validity]⟩
  | ok v =>
    exact ⟨e, by simp only [Database.objects, hp, he, bind, Except.bind, assert_validity]⟩

theorem objects_err_purposes {db : DB} {p : Option String} {mi g pu : PyArg}
    {sw wt : Option String} (hpu : ∃ s ∈ pyElems pu, s ∉ m_valid_purposes) :
    IsErr (Database.objects (some db) p mi g pu sw wt) := by
  obtain ⟨e, he⟩ := check_validity_err "purpose" hpu
  cases hp : check_single p "protocol" m_valid_protocols with
  | error e2 =>
    exact ⟨e2, by simp only [Database.objects, hp, bind, Except.bind, assert_validity]⟩
  | ok v =>
    cases hgr : check_validity g "group" m_valid_groups with
    | error e3 =>
      exact ⟨e3, by simp only [Database.objects, hp, hgr, bind, Except.bind, assert_validity]⟩
    | ok gs =>
      exact ⟨e, by simp only [Database.objects, hp, hgr, he, bind, Except.bind, assert_validity]⟩

theorem objects_err_subworld {db : DB} {p : Option String} {mi g pu : PyArg}
    {wt : Option String} {s : String} (hs : s ∉ subworld_keys) :
    IsErr (Database.objects (some db) p mi g pu (some s) wt) := by
  have he := check_subworld_err hs
  cases hp : check_single p "protocol" m_valid_protocols with
  | error e2 =>
    exact ⟨e2, by simp only [Database.objects, hp, bind, Except.bind, assert_validity]⟩
  | ok v =>
    cases hgr : check_validity g "group" m_valid_groups with
    | error e3 =>
      exact ⟨e3, by simp only [Database.objects, hp, hgr, bind, Except.bind, assert_validity]⟩
    | ok gs =>
      cases hpu : check_validity pu "purpose" m_valid_purposes with
      | error e4 =>
        exact ⟨e4, by
          simp only [Database.objects, hp, hgr, hpu, bind, Except.bind, assert_validity]⟩
      | ok pus =>
        cases hwt : check_single wt "training type" m_valid_types with
        | error e5 =>
          exact ⟨e5, by
            simp only [Database.objects, hp, hgr, hpu, hwt, bind, Except.bind, assert_validity]⟩
        | ok wts =>
          exact ⟨DBError.valueError "sub-world", by
            simp only [Database.objects, hp, hgr, hpu, hwt, he, bind, Except.bind,
              assert_validity]⟩

theorem pairs_err_protocol {db : DB} {p : Option String} {g c : PyArg} {sw : Option String}
    (hp : bad_single p m_valid_protocols) : IsErr (Database.pairs (some db) p g c sw) := by
  obtain ⟨e, he⟩ := check_single_err "protocol" hp
  exact ⟨e, by simp only [Database.pairs, he, bind, Except.bind, assert_validity]⟩

theorem pairs_err_groups {db : DB} {p : Option String} {g c : PyArg} {sw : Option String}
    (hg : ∃ s ∈ pyElems g, s ∉ m_valid_groups) : IsErr (Database.pairs (some db) p g c sw) := by
  obtain ⟨e, he⟩ := check_validity_err "group" hg
  cases hp : check_single p "protocol" m_valid_protocols with
  | error e2 =>
    exact ⟨e2, by simp only [Database.pairs, hp, bind, Except.bind, assert_validity]⟩
  | ok v =>
    exact ⟨e, by simp only [Database.pairs, hp, he, bind, Except.bind, assert_validity]⟩

theorem pairs_err_classes {db : DB} {p : Option String} {g c : PyArg} {sw : Option String}
    (hc : ∃ s ∈ pyElems c, s ∉ m_valid_classes) : IsErr (Database.pairs (some db) p g c sw) := by
  obtain ⟨e, he⟩ := check_validity_err "class" hc
  cases hp : check_single p "protocol" m_valid_protocols with
  | error e2 =>
    exact ⟨e2, by simp only [Database.pairs, hp, bind, Except.bind, assert_validity]⟩
  | ok v =>
    cases hgr : check_validity g "group" m_valid_groups with
    | error e3 =>
      exact ⟨e3, by simp only [Database.pairs, hp, hgr, bind, Except.bind, assert_validity]⟩
    | ok gs =>
      exact ⟨e, by simp only [Database.pairs, hp, hgr, he, bind, Except.bind, assert_validity]⟩

theorem pairs_err_subworld {db : DB} {p : Option String} {g c : PyArg} {s : String}
    (hs : s ∉ subworld_keys) : IsErr (Database.pairs (some db) p g c (some s)) := by
  have he := check_subworld_err hs
  cases hp : check_single p "protocol" m_valid_protocols with
  | error e2 =>
    exact ⟨e2, by simp only [Database.pairs, hp, bind, Except.bind, assert_validity]⟩
  | ok v =>
    cases hgr : check_validity g "group" m_valid_groups with
    | error e3 =>
      exact ⟨e3, by simp only [Database.pairs, hp, hgr, bind, Except.bind, assert_validity]⟩
    | ok gs =>
      cases hcl : check_validity c "class" m_valid_classes with
      | error e4 =>
        exact ⟨e4, by
          simp only [Database.pairs, hp, hgr, hcl, bind, Except.bind, assert_validity]⟩
      | ok cls =>
        exact ⟨DBError.valueError "sub-world", by
          simp only [Database.pairs, hp, hgr, hcl, he, bind, Except.bind, assert_validity]⟩

theorem cv_none (d : String) (valid : List String) :
    check_validity PyArg.none d valid = Except.ok valid := rfl

theorem cv_empty (d : String) (valid : List String) :
    check_validity (PyArg.list []) d valid = Except.ok valid := rfl

theorem cv_str_empty (d : String) (valid : List String) :
    check_validity (PyArg.str "") d valid = Except.ok valid := rfl

theorem cv_list_self (d : String) (valid : List String) :
    check_validity (PyArg.list valid) d valid = Except.ok valid := by
  by_cases h : valid = []
  · subst h; rfl
  · simp only [check_validity, if_neg h, check_list, if_pos (fun k hk => hk)]

theorem cv_str_ne {s : String} (h : ¬ s = "") (d : String) (valid : List String) :
    check_validity (PyArg.str s) d valid = check_validity (PyArg.list [s]) d valid := by
  simp only [check_validity, if_neg h]
  rw [if_neg (List.cons_ne_nil s [])]

theorem clients_congr_groups {sess : Option DB} {p : Option String} {g1 g2 : PyArg}
    {sw : Option String}
    (h : check_validity g1 "group" m_valid_groups = check_validity g2 "group" m_valid_groups) :
    Database.clients sess p g1 sw = Database.clients sess p g2 sw := by
  unfold Database.clients
  rw [h]

theorem models_congr_groups {sess : Option DB} {p : Option String} {g1 g2 : PyArg}
    {sw : Option String}
    (h : check_validity g1 "group" m_valid_groups = check_validity g2 "group" m_valid_groups) :
    Database.models sess p g1 sw = Database.models sess p g2 sw := by
  unfold Database.models
  rw [h]

theorem objects_congr_groups {sess : Option DB} {p : Option String} {mi g1 g2 pu : PyArg}
    {sw wt : Option String}
    (h : check_validity g1 "group" m_valid_groups = check_validity g2 "group" m_valid_groups) :
    Database.objects sess p mi g1 pu sw wt = Database.objects sess p mi g2 pu sw wt := by
  unfold Database.objects
  rw [h]

theorem objects_congr_purposes {sess : Option DB} {p : Option String} {mi g pu1 pu2 : PyArg}
    {sw wt : Option String}
    (h : check_validity pu1 "purpose" m_valid_purposes
       = check_validity pu2 "purpose" m_valid_purposes) :
    Database.objects sess p mi g pu1 sw wt = Database.objects sess p mi g pu2 sw wt := by
  unfold Database.objects
  rw [h]

theorem pairs_congr_groups {sess : Option DB} {p : Option String} {g1 g2 c : PyArg}
    {sw : Option String}
    (h : check_validity g1 "group" m_valid_groups = check_validity g2 "group" m_valid_groups) :
    Database.pairs sess p g1 c sw = Database.pairs sess p g2 c sw := by
  unfold Database.pairs
  rw [h]

theorem pairs_congr_classes {sess : Option DB} {p : Option String} {g c1 c2 : PyArg}
    {sw : Option String}
    (h : check_validity c1 "class" m_valid_classes
       = check_validity c2 "class" m_valid_classes) :
    Database.pairs sess p g c1 sw = Database.pairs sess p g c2 sw := by
  unfold Database.pairs
  rw [h]

/-- Python `sorted()` does not depend on the order in which the OS listed
the input: sorting by the total order `rStr` collapses any two permutations
of the same listing to one list. -/
theorem pySorted_congr {l1 l2 : List String} (h : l1.Perm l2) : pySorted l1 = pySorted l2 :=
  List.eq_of_perm_of_sorted
    ((List.perm_insertionSort rStr l1).trans (h.trans (List.perm_insertionSort rStr l2).symm))
    (List.sorted_insertionSort rStr l1)
    (List.sorted_insertionSort rStr l2)

/-! ### The claims -/

/-- C2: for every query operation (`clients`, `models`, `objects`, `pairs`)
on a valid database, an invalid protocol (absent or outside the eleven valid
ones), an invalid element of the `groups` / `purposes` / `classes` argument,
or a non-`None` subworld outside the seven subworld keys makes the operation
raise an error and return no result. -/
theorem C2_invalid_arguments_raise :
    (∀ (db : DB) (p : Option String) (g : PyArg) (sw : Option String),
      bad_single p m_valid_protocols → IsErr (Database.clients (some db) p g sw)) ∧
    (∀ (db : DB) (p : Option String) (g : PyArg) (sw : Option String),
      (∃ s ∈ pyElems g, s ∉ m_valid_groups) → IsErr (Database.clients (some db) p g sw)) ∧
    (∀ (db : DB) (p : Option String) (g : PyArg) (s : String),
      s ∉ subworld_keys → IsErr (Database.clients (some db) p g (some s))) ∧
    (∀ (db : DB) (p : Option String) (g : PyArg) (sw : Option String),
      bad_single p m_valid_protocols → IsErr (Database.models (some db) p g sw)) ∧
    (∀ (db : DB) (p : Option String) (g : PyArg) (sw : Option String),
      (∃ s ∈ pyElems g, s ∉ m_valid_groups) → IsErr (Database.models (some db) p g sw)) ∧
    (∀ (db : DB) (p : Option String) (g : PyArg) (s : String),
      s ∉ subworld_keys → IsErr (Database.models (some db) p g (some s))) ∧
    (∀ (db : DB) (p : Option String) (mi g pu : PyArg) (sw wt : Option String),
      bad_single p m_valid_protocols → IsErr (Database.objects (some db) p mi g pu sw wt)) ∧
    (∀ (db : DB) (p : Option String) (mi g pu : PyArg) (sw wt : Option String),
      (∃ s ∈ pyElems g, s ∉ m_valid_groups) →
        IsErr (Database.objects (some db) p mi g pu sw wt)) ∧
    (∀ (db : DB) (p : Option String) (mi g pu : PyArg) (sw wt : Option String),
      (∃ s ∈ pyElems pu, s ∉ m_valid_purposes) →
        IsErr (Database.objects (some db) p mi g pu sw wt)) ∧
    (∀ (db : DB) (p : Option String) (mi g pu : PyArg) (wt : Option String) (s : String),
      s ∉ subworld_keys → IsErr (Database.objects (some db) p mi g pu (some s) wt)) ∧
    (∀ (db : DB) (p : Option String) (g c : PyArg) (sw : Option String),
      bad_single p m_valid_protocols → IsErr (Database.pairs (some db) p g c sw)) ∧
    (∀ (db : DB) (p : Option String) (g c : PyArg) (sw : Option String),
      (∃ s ∈ pyElems g, s ∉ m_valid_groups) → IsErr (Database.pairs (some db) p g c sw)) ∧
    (∀ (db : DB) (p : Option String) (g c : PyArg) (sw : Option String),
      (∃ s ∈ pyElems c, s ∉ m_valid_classes) → IsErr (Database.pairs (some db) p g c sw)) ∧
    (∀ (db : DB) (p : Option String) (g c : PyArg) (s : String),
      s ∉ subworld_keys → IsErr (Database.pairs (some db) p g c (some s))) :=
  ⟨fun _ _ _ _ h => clients_err_protocol h,
   fun _ _ _ _ h => clients_err_groups h,
   fun _ _ _ _ h => clients_err_subworld h,
   fun _ _ _ _ h => models_err_protocol h,
   fun _ _ _ _ h => models_err_groups h,
   fun _ _ _ _ h => models_err_subworld h,
   fun _ _ _ _ _ _ _ h => objects_err_protocol h,
   fun _ _ _ _ _ _ _ h => objects_err_groups h,
   fun _ _ _ _ _ _ _ h => objects_err_purposes h,
   fun _ _ _ _ _ _ _ h => objects_err_subworld h,
   fun _ _ _ _ _ h => pairs_err_protocol h,
   fun _ _ _ _ _ h => pairs_err_groups h,
   fun _ _ _ _ _ h => pairs_err_classes h,
   fun _ _ _ _ _ h => pairs_err_subworld h⟩

/-- C9: for every query operation, passing `None`, an empty sequence or the
empty string (itself an empty sequence, caught by the same falsy test) for
the `groups` / `purposes` / `classes` argument returns the same list as
passing the full tuple of valid values; a (non-empty) single string is
treated as the one-element tuple containing it. -/
theorem C9_default_argument_expansion :
    (∀ (sess : Option DB) (p : Option String) (sw : Option String),
      Database.clients sess p PyArg.none sw
        = Database.clients sess p (PyArg.list m_valid_groups) sw) ∧
    (∀ (sess : Option DB) (p : Option String) (sw : Option String),
      Database.clients sess p (PyArg.list []) sw
        = Database.clients sess p (PyArg.list m_valid_groups) sw) ∧
    (∀ (sess : Option DB) (p : Option String) (sw : Option String),
      Database.clients sess p (PyArg.str "") sw
        = Database.clients sess p (PyArg.list m_valid_groups) sw) ∧
    (∀ (sess : Option DB) (p : Option String) (sw : Option String) (g : String), ¬ g = "" →
      Database.clients sess p (PyArg.str g) sw
        = Database.clients sess p (PyArg.list [g]) sw) ∧
    (∀ (sess : Option DB) (p : Option String) (sw : Option String),
      Database.models sess p PyArg.none sw
        = Database.models sess p (PyArg.list m_valid_groups) sw) ∧
    (∀ (sess : Option DB) (p : Option String) (sw : Option String),
      Database.models sess p (PyArg.list []) sw
        = Database.models sess p (PyArg.list m_valid_groups) sw) ∧
    (∀ (sess : Option DB) (p : Option String) (sw : Option String),
      Database.models sess p (PyArg.str "") sw
        = Database.models sess p (PyArg.list m_valid_groups) sw) ∧
    (∀ (sess : Option DB) (p : Option String) (sw : Option String) (g : String), ¬ g = "" →
      Database.models sess p (PyArg.str g) sw
        = Database.models sess p (PyArg.list [g]) sw) ∧
    (∀ (sess : Option DB) (p : Option String) (mi pu : PyArg) (sw wt : Option String),
      Database.objects sess p mi PyArg.none pu sw wt
        = Database.objects sess p mi (PyArg.list m_valid_groups) pu sw wt) ∧
    (∀ (sess : Option DB) (p : Option String) (mi pu : PyArg) (sw wt : Option String),
      Database.objects sess p mi (PyArg.list []) pu sw wt
        = Database.objects sess p mi (PyArg.list m_valid_groups) pu sw wt) ∧
    (∀ (sess : Option DB) (p : Option String) (mi pu : PyArg) (sw wt : Option String),
      Database.objects sess p mi (PyArg.str "") pu sw wt
        = Database.objects sess p mi (PyArg.list m_valid_groups) pu sw wt) ∧
    (∀ (sess : Option DB) (p : Option String) (mi pu : PyArg) (sw wt : Option String)
        (g : String), ¬ g = "" →
      Database.objects sess p mi (PyArg.str g) pu sw wt
        = Database.objects sess p mi (PyArg.list [g]) pu sw wt) ∧
    (∀ (sess : Option DB) (p : Option String) (mi g : PyArg) (sw wt : Option String),
      Database.objects sess p mi g PyArg.none sw wt
        = Database.objects sess p mi g (PyArg.list m_valid_purposes) sw wt) ∧
    (∀ (sess : Option DB) (p : Option String) (mi g : PyArg) (sw wt : Option String),
      Database.objects sess p mi g (PyArg.list []) sw wt
        = Database.objects sess p mi g (PyArg.list m_valid_purposes) sw wt) ∧
    (∀ (sess : Option DB) (p : Option String) (mi g : PyArg) (sw wt : Option String),
      Database.objects sess p mi g (PyArg.str "") sw wt
        = Database.objects sess p mi g (PyArg.list m_valid_purposes) sw wt) ∧
    (∀ (sess : Option DB) (p : Option String) (mi g : PyArg) (sw wt : Option String)
        (pu : String), ¬ pu = "" →
      Database.objects sess p mi g (PyArg.str pu) sw wt
        = Database.objects sess p mi g (PyArg.list [pu]) sw wt) ∧
    (∀ (sess : Option DB) (p : Option String) (c : PyArg) (sw : Option String),
      Database.pairs sess p PyArg.none c sw
        = Database.pairs sess p (PyArg.list m_valid_groups) c sw) ∧
    (∀ (sess : Option DB) (p : Option String) (c : PyArg) (sw : Option String),
      Database.pairs sess p (PyArg.list []) c sw
        = Database.pairs sess p (PyArg.list m_valid_groups) c sw) ∧
    (∀ (sess : Option DB) (p : Option String) (c : PyArg) (sw : Option String),
      Database.pairs sess p (PyArg.str "") c sw
        = Database.pairs sess p (PyArg.list m_valid_groups) c sw) ∧
    (∀ (sess : Option DB) (p : Option String) (c : PyArg) (sw : Option String) (g : String),
        ¬ g = "" →
      Database.pairs sess p (PyArg.str g) c sw = Database.pairs sess p (PyArg.list [g]) c sw) ∧
    (∀ (sess : Option DB) (p : Option String) (g : PyArg) (sw : Option String),
      Database.pairs sess p g PyArg.none sw
        = Database.pairs sess p g (PyArg.list m_valid_classes) sw) ∧
    (∀ (sess : Option DB) (p : Option String) (g : PyArg) (sw : Option String),
      Database.pairs sess p g (PyArg.list []) sw
        = Database.pairs sess p g (PyArg.list m_valid_classes) sw) ∧
    (∀ (sess : Option DB) (p : Option String) (g : PyArg) (sw : Option String),
      Database.pairs sess p g (PyArg.str "") sw
        = Database.pairs sess p g (PyArg.list m_valid_classes) sw) ∧
    (∀ (sess : Option DB) (p : Option String) (g : PyArg) (sw : Option String) (c : String),
        ¬ c = "" →
      Database.pairs sess p g (PyArg.str c) sw = Database.pairs sess p g (PyArg.list [c]) sw) :=
  ⟨fun _ _ _ => clients_congr_groups ((cv_none _ _).trans (cv_list_self _ _).symm),
   fun _ _ _ => clients_congr_groups ((cv_empty _ _).trans (cv_list_self _ _).symm),
   fun _ _ _ => clients_congr_groups ((cv_str_empty _ _).trans (cv_list_self _ _).symm),
   fun _ _ _ _ h => clients_congr_groups (cv_str_ne h _ _),
   fun _ _ _ => models_congr_groups ((cv_none _ _).trans (cv_list_self _ _).symm),
   fun _ _ _ => models_congr_groups ((cv_empty _ _).trans (cv_list_self _ _).symm),
   fun _ _ _ => models_congr_groups ((cv_str_empty _ _).trans (cv_list_self _ _).symm),
   fun _ _ _ _ h => models_congr_groups (cv_str_ne h _ _),
   fun _ _ _ _ _ _ => objects_congr_groups ((cv_none _ _).trans (cv_list_self _ _).symm),
   fun _ _ _ _ _ _ => objects_congr_groups ((cv_empty _ _).trans (cv_list_self _ _).symm),
   fun _ _ _ _ _ _ => objects_congr_groups ((cv_str_empty _ _).trans (cv_list_self _ _).symm),
   fun _ _ _ _ _ _ _ h => objects_congr_groups (cv_str_ne h _ _),
   fun _ _ _ _ _ _ => objects_congr_purposes ((cv_none _ _).trans (cv_list_self _ _).symm),
   fun _ _ _ _ _ _ => objects_congr_purposes ((cv_empty _ _).trans (cv_list_self _ _).symm),
   fun _ _ _ _ _ _ => objects_congr_purposes ((cv_str_empty _ _).trans (cv_list_self _ _).symm),
   fun _ _ _ _ _ _ _ h => objects_congr_purposes (cv_str_ne h _ _),
   fun _ _ _ _ => pairs_congr_groups ((cv_none _ _).trans (cv_list_self _ _).symm),
   fun _ _ _ _ => pairs_congr_groups ((cv_empty _ _).trans (cv_list_self _ _).symm),
   fun _ _ _ _ => pairs_congr_groups ((cv_str_empty _ _).trans (cv_list_self _ _).symm),
   fun _ _ _ _ _ h => pairs_congr_groups (cv_str_ne h _ _),
   fun _ _ _ _ => pairs_congr_classes ((cv_none _ _).trans (cv_list_self _ _).symm),
   fun _ _ _ _ => pairs_congr_classes ((cv_empty _ _).trans (cv_list_self _ _).symm),
   fun _ _ _ _ => pairs_congr_classes ((cv_str_empty _ _).trans (cv_list_self _ _).symm),
   fun _ _ _ _ _ h => pairs_congr_classes (cv_str_ne h _ _)⟩

/-- Witness for C9: a single non-empty string group behaves as its
one-element tuple on the sample database. -/
theorem C9_witness :
    ¬ ("world" : String) = "" ∧
    Database.clients (some exDB) (some "fold1") (PyArg.str "world") (some "sevenfolds")
      = Database.clients (some exDB) (some "fold1") (PyArg.list ["world"]) (some "sevenfolds") :=
  ⟨by decide,
   C9_default_argument_expansion.2.2.2.1 (some exDB) (some "fold1") (some "sevenfolds")
     "world" (by decide)⟩

/-- Witness for C2: an invalid protocol string makes `clients` raise on the
sample database. -/
theorem C2_witness :
    IsErr (Database.clients (some exDB) (some "bogus") PyArg.none (some "sevenfolds")) :=
  C2_invalid_arguments_raise.1 exDB (some "bogus") PyArg.none (some "sevenfolds")
    (fun s hs => by
      injection hs with h
      subst h
      decide)

/-- C3: whenever the SQLite database file does not exist at its expected
location (so `connect` left `m_session = None`), every public query
operation — `clients`, `models`, `objects`, `pairs`, `paths`, `reverse`,
`get_client_id_from_file_id`, `get_client_id_from_model_id` — raises the
`RuntimeError` of `assert_validity` instead of returning a result. -/
theorem C3_missing_database_raises :
    ∀ (p : Option String) (g c pu mi : PyArg) (sw wt : Option String)
      (ids pl : List String) (pfx sfx fid mid : String),
      Database.clients Option.none p g sw = Except.error noDbError ∧
      Database.models Option.none p g sw = Except.error noDbError ∧
      Database.objects Option.none p mi g pu sw wt = Except.error noDbError ∧
      Database.pairs Option.none p g c sw = Except.error noDbError ∧
      Database.paths Option.none ids pfx sfx = Except.error noDbError ∧
      Database.reverse Option.none pl = Except.error noDbError ∧
      Database.get_client_id_from_file_id Option.none fid = Except.error noDbError ∧
      Database.get_client_id_from_model_id Option.none mid = Except.error noDbError :=
  fun _ _ _ _ _ _ _ _ _ _ _ _ _ => ⟨rfl, rfl, rfl, rfl, rfl, rfl, rfl, rfl⟩

/-- C4: no query operation modifies the contents of any table: for every
call, the session state after the call equals the state before it, whether
the call returns normally or raises. -/
theorem C4_queries_preserve_state (session : Option DB) (c : QueryCall) :
    (runCall session c).snd = session := by
  cases c <;> rfl

/-- C5: the one-time import routine creates exactly the five tables
`client`, `file`, `people`, `pair`, `annotation`, and inserts rows only into
those five tables (every row of every successful run lands in one of them,
and a sample run inserts at least one row into each); its inputs — the
fields of `CreateEnv` — are only directory listings and fixed-format text
files. -/
theorem C5_create_five_tables :
    created_tables = ["client", "file", "people", "pair", "annotation"] ∧
    (∀ env log, create env = Except.ok log → ∀ r ∈ log, Row.table r ∈ created_tables) ∧
    (∃ log, create exEnv = Except.ok log ∧ ∀ t ∈ created_tables, ∃ r ∈ log, Row.table r = t) :=
  ⟨rfl, fun _ _ _ r _ => by cases r <;> simp [Row.table, created_tables], ⟨_, rfl, by decide⟩⟩

/-- Witness for C5: applying the universal part to the sample environment,
the sample log and its first row. -/
theorem C5_witness : Row.table (Row.client { id := "Aaron" }) ∈ created_tables :=
  C5_create_five_tables.2.1 exEnv ((create exEnv).toOption.getD [])
    (by rfl) (Row.client { id := "Aaron" }) (by decide)

/-- C6: the import routine is deterministic: two runs of `create` over the
same image directory tree (the same directory entries, in whatever order the
OS lists them), the same protocol text files and the same annotation files
insert the same rows in the same order into every table. -/
theorem C6_create_deterministic (i1 i2 : List String) (df1 df2 : String → List String)
    (pdtr pdte ppl patr pate : List String) (pf : Nat → List String)
    (atys : List String) (idir fdir : String) (aex : String → Bool) (aco : String → String)
    (h1 : i1.Perm i2) (h2 : ∀ d, (df1 d).Perm (df2 d)) :
    create ⟨i1, df1, pdtr, pdte, ppl, patr, pate, pf, atys, idir, fdir, aex, aco⟩
      = create ⟨i2, df2, pdtr, pdte, ppl, patr, pate, pf, atys, idir, fdir, aex, aco⟩ := by
  have hfiles :
      add_files ⟨i1, df1, pdtr, pdte, ppl, patr, pate, pf, atys, idir, fdir, aex, aco⟩
        = add_files ⟨i2, df2, pdtr, pdte, ppl, patr, pate, pf, atys, idir, fdir, aex, aco⟩ := by
    simp only [add_files]
    rw [pySorted_congr h1]
    apply flatMap_congr2
    intro d _
    rw [pySorted_congr (h2 d)]
  simp only [create]
  rw [hfiles]
  rfl

/-- Witness for C6: two listing orders of the sample image directory give
the same created rows. -/
theorem C6_witness :
    (["Bob", "Aaron"] : List String).Perm ["Aaron", "Bob"] ∧
    create { exEnv with image_dirs := ["Bob", "Aaron"] }
      = create { exEnv with image_dirs := ["Aaron", "Bob"] } :=
  ⟨by decide,
   C6_create_deterministic ["Bob", "Aaron"] ["Aaron", "Bob"] exEnv.dir_files exEnv.dir_files
     exEnv.peopleDevTrain exEnv.peopleDevTest exEnv.people exEnv.pairsDevTrain
     exEnv.pairsDevTest exEnv.pairs_fold exEnv.annot_types exEnv.idiap_dir exEnv.funneled_dir
     exEnv.annot_exists exEnv.annot_content (by decide) (fun d => List.Perm.refl _)⟩

/-- C7: during annotation ingestion, for every file whose annotation file
does not exist, `add_annotations` skips that file and continues with the
remaining files — the rows added are exactly one `Annotation` row per file
whose annotation file exists, in file order, and nothing else; the function
is total (it cannot raise), so a missing annotation file never aborts
the ingestion. -/
theorem C7_add_annots_skips_missing (env : CreateEnv) (log : List Row) (d e t : String) :
    add_annots env log d e t =
      log ++ ((filesOf log).filter (fun f => env.annot_exists (File.make_path f d e))).map
        (fun f => Row.annot { file_id := f.id, annot_type := t,
                              content := env.annot_content (File.make_path f d e) }) := by
  unfold add_annots
  congr 1
  exact flatMap_if_singleton _ _ _

/-- C10: for every `File` constructed from a client id and a shot id whose
string representation has at most 4 characters, the file id equals the
client id, an underscore, and the shot id left-padded with `'0'` to length
4, and the file path is the path join of the client id with that id. -/
theorem C10_file_id_padding (client_id shot_id : String) (h : shot_id.length ≤ 4) :
    (File.init client_id shot_id).id = client_id ++ "_" ++ leftPad4 shot_id ∧
    (leftPad4 shot_id).length = 4 ∧
    (File.init client_id shot_id).path = pathJoin client_id ((File.init client_id shot_id).id) := by
  obtain ⟨l⟩ := shot_id
  refine ⟨?_, ?_, rfl⟩
  · apply String.ext
    simp [File.init, leftPad4, zeros]
  · show (List.replicate (4 - (String.mk l).length) '0' ++ l).length = 4
    have hl : (String.mk l).length = l.length := rfl
    rw [hl] at h ⊢
    rw [List.length_append, List.length_replicate]
    omega

/-- C1: for every fold protocol `foldk` on a valid database, `pairs` with
group `eval` returns exactly the `Pair` rows whose protocol equals `foldk`;
with group `dev` exactly those whose protocol is `foldm` for
`m ∈ {(k+7) % 10 + 1, (k+8) % 10 + 1}`; and with group `world` and a
subworld mapping to count `n` exactly those whose protocol is `foldm` for
`m ∈ {(k+i) % 10 + 1 : 0 ≤ i < n}` (each as the order-preserving filter of
the pair table). -/
theorem C1_pairs_fold_rotation (db : DB) (hdb : ValidDB db) (k : Nat) (h1 : 1 ≤ k)
    (h2 : k ≤ 10) (sw : String) (n : Nat) (hsw : lookup_subworld (some sw) = some n) :
    Database.pairs (some db) (some ("fold" ++ toString k)) (PyArg.list ["eval"]) PyArg.none
        (some "sevenfolds")
      = Except.ok (db.pairs.filter (fun p => decide (p.protocol = "fold" ++ toString k))) ∧
    Database.pairs (some db) (some ("fold" ++ toString k)) (PyArg.list ["dev"]) PyArg.none
        (some "sevenfolds")
      = Except.ok (db.pairs.filter (fun p =>
          decide (p.protocol ∈ ["fold" ++ toString ((k + 7) % 10 + 1),
                                "fold" ++ toString ((k + 8) % 10 + 1)]))) ∧
    Database.pairs (some db) (some ("fold" ++ toString k)) (PyArg.list ["world"]) PyArg.none
        (some sw)
      = Except.ok (db.pairs.filter (fun p =>
          decide (p.protocol ∈ (List.range n).map (fun i => "fold" ++ toString ((k + i) % 10 + 1))))) := by
  have hp : ("fold" ++ toString k) ∈ m_valid_protocols := by interval_cases k <;> decide
  have hv : ¬ ("fold" ++ toString k) = "view1" := by interval_cases k <;> decide
  have hsev : ("sevenfolds" : String) ∈ subworld_keys := by decide
  have hdq := default_query_eq hdb
  have hef := evalFold_fold k h1 h2
  refine ⟨?_, ?_, ?_⟩
  · rw [pairs_eval_eq db _ hp hv _ hsev, hdq]
  · rw [pairs_dev_eq db _ hp hv _ hsev, hdq]
    have hdev : dev_for ("fold" ++ toString k)
        = ["fold" ++ toString ((k + 7) % 10 + 1), "fold" ++ toString ((k + 8) % 10 + 1)] := by
      simp [dev_for, devFolds, hef]
    rw [hdev]
  · rw [pairs_world_eq db _ hp hv _ n hsw, hdq]
    have hwl : world_list ("fold" ++ toString k) n
        = (List.range n).map (fun i => "fold" ++ toString ((k + i) % 10 + 1)) := by
      simp [world_list, hef]
    rw [hwl]

/-- Witness for C1 at the sample database, fold 1 and subworld
`sevenfolds`. -/
theorem C1_witness :
    (ValidDB exDB ∧ 1 ≤ 1 ∧ 1 ≤ 10 ∧ lookup_subworld (some "sevenfolds") = some 7) ∧
    (Database.pairs (some exDB) (some ("fold" ++ toString 1)) (PyArg.list ["eval"]) PyArg.none
        (some "sevenfolds")
      = Except.ok (exDB.pairs.filter (fun p => decide (p.protocol = "fold" ++ toString 1))) ∧
    Database.pairs (some exDB) (some ("fold" ++ toString 1)) (PyArg.list ["dev"]) PyArg.none
        (some "sevenfolds")
      = Except.ok (exDB.pairs.filter (fun p =>
          decide (p.protocol ∈ ["fold" ++ toString ((1 + 7) % 10 + 1),
                                "fold" ++ toString ((1 + 8) % 10 + 1)]))) ∧
    Database.pairs (some exDB) (some ("fold" ++ toString 1)) (PyArg.list ["world"]) PyArg.none
        (some "sevenfolds")
      = Except.ok (exDB.pairs.filter (fun p =>
          decide (p.protocol ∈ (List.range 7).map (fun i => "fold" ++ toString ((1 + i) % 10 + 1)))))) :=
  ⟨⟨by decide, by decide, by decide, rfl⟩,
   C1_pairs_fold_rotation exDB (by decide) 1 (by decide) (by decide) "sevenfolds" 7 rfl⟩

/-- C8: for every `k` in 1..10, the seven-element world set of
`__world_for__('foldk', 'sevenfolds')`, the two-element dev set of
`__dev_for__('foldk')` and the singleton `{'foldk'}` are pairwise disjoint
and together are exactly the ten folds `fold1`..`fold10`. -/
theorem C8_fold_partition (k : Nat) (h1 : 1 ≤ k) (h2 : k ≤ 10) :
    world_for ("fold" ++ toString k) (some "sevenfolds")
      = Except.ok (world_list ("fold" ++ toString k) 7) ∧
    (world_list ("fold" ++ toString k) 7).length = 7 ∧
    (dev_for ("fold" ++ toString k)).length = 2 ∧
    (world_list ("fold" ++ toString k) 7).Nodup ∧
    (dev_for ("fold" ++ toString k)).Nodup ∧
    (∀ x ∈ world_list ("fold" ++ toString k) 7, x ∉ dev_for ("fold" ++ toString k)) ∧
    (∀ x ∈ world_list ("fold" ++ toString k) 7, x ≠ "fold" ++ toString k) ∧
    (∀ x ∈ dev_for ("fold" ++ toString k), x ≠ "fold" ++ toString k) ∧
    (∀ x ∈ world_list ("fold" ++ toString k) 7, x ∈ m_valid_protocols.drop 1) ∧
    (∀ x ∈ dev_for ("fold" ++ toString k), x ∈ m_valid_protocols.drop 1) ∧
    ("fold" ++ toString k) ∈ m_valid_protocols.drop 1 ∧
    (∀ x ∈ m_valid_protocols.drop 1,
      x ∈ world_list ("fold" ++ toString k) 7 ∨ x ∈ dev_for ("fold" ++ toString k) ∨
        x = "fold" ++ toString k) := by
  interval_cases k <;> exact ⟨rfl, by decide⟩

/-- Witness for C8 at fold 3. -/
theorem C8_witness :
    (1 ≤ 3 ∧ 3 ≤ 10) ∧
    (world_for ("fold" ++ toString 3) (some "sevenfolds")
      = Except.ok (world_list ("fold" ++ toString 3) 7) ∧
    (world_list ("fold" ++ toString 3) 7).length = 7 ∧
    (dev_for ("fold" ++ toString 3)).length = 2 ∧
    (world_list ("fold" ++ toString 3) 7).Nodup ∧
    (dev_for ("fold" ++ toString 3)).Nodup ∧
    (∀ x ∈ world_list ("fold" ++ toString 3) 7, x ∉ dev_for ("fold" ++ toString 3)) ∧
    (∀ x ∈ world_list ("fold" ++ toString 3) 7, x ≠ "fold" ++ toString 3) ∧
    (∀ x ∈ dev_for ("fold" ++ toString 3), x ≠ "fold" ++ toString 3) ∧
    (∀ x ∈ world_list ("fold" ++ toString 3) 7, x ∈ m_valid_protocols.drop 1) ∧
    (∀ x ∈ dev_for ("fold" ++ toString 3), x ∈ m_valid_protocols.drop 1) ∧
    ("fold" ++ toString 3) ∈ m_valid_protocols.drop 1 ∧
    (∀ x ∈ m_valid_protocols.drop 1,
      x ∈ world_list ("fold" ++ toString 3) 7 ∨ x ∈ dev_for ("fold" ++ toString 3) ∨
        x = "fold" ++ toString 3)) :=
  ⟨⟨by decide, by decide⟩, C8_fold_partition 3 (by decide) (by decide)⟩

/-- Witness for C10 at `File('Aaron', '1')`. -/
theorem C10_witness :
    ("1" : String).length ≤ 4 ∧
    ((File.init "Aaron" "1").id = "Aaron" ++ "_" ++ leftPad4 "1" ∧
     (leftPad4 "1").length = 4 ∧
     (File.init "Aaron" "1").path = pathJoin "Aaron" ((File.init "Aaron" "1").id)) :=
  ⟨by decide, C10_file_id_padding "Aaron" "1" (by decide)⟩

end LFW
